import Mathlib

/-!
Shallow embedding of the SOC report generator service
(`src/pdf/generator.ts`, `src/routes/reports.ts`, `app.ts`).

JavaScript strings are modelled by `String`, JSON numbers relevant to the
claims by `Nat`/`ℚ`, absent-or-present JSON fields by `Option`, and the
server's mutable state (database rows and the local `reports/` directory)
by an explicit `ServerState` record threaded through the route handlers.
JS truthiness of a string field (`!x`) is: absent and the empty string are
falsy, every other string is truthy.
-/

namespace SOCReportGen

/-- A raw finding as submitted by the caller.  Only the `severity` field is
inspected by `analyzeFindings`; the remaining fields receive textual
defaults during rendering and play no role in the claims. -/
structure RawFinding where
  severity : Option String
  deriving Repr, DecidableEq

/-- The five-field aggregate returned by `PDFGenerator.analyzeFindings`. -/
structure FindingsAnalysis where
  totalFindings : Nat
  criticalCount : Nat
  highCount : Nat
  mediumCount : Nat
  lowCount : Nat
  deriving Repr, DecidableEq

/-- JS truthiness of an optional string: `undefined`/missing and `""` are
falsy. -/
def strTruthy : Option String → Bool
  | none => false
  | some s => !(s == "")

/-- `(finding.severity || 'MEDIUM')` — the default applies to the absent
field and to the falsy empty string. -/
def severityOrDefault : Option String → String
  | none => "MEDIUM"
  | some s => if s == "" then "MEDIUM" else s

/-- `String.prototype.toUpperCase` on the ASCII severity strings the code
compares against: uppercase every character. -/
def jsToUpper (s : String) : String :=
  ⟨s.data.map Char.toUpper⟩

/-- `(finding.severity || 'MEDIUM').toUpperCase()` from
`analyzeFindings`. -/
def normalizeSeverity (sev : Option String) : String :=
  jsToUpper (severityOrDefault sev)

/-- One iteration of the `switch` statement inside
`analyzeFindings`: bump the bucket matching the normalized severity; an
unrecognized severity falls through every `case` and bumps nothing. -/
def tally (c : FindingsAnalysis) (severity : String) : FindingsAnalysis :=
  if severity = "CRITICAL" then { c with criticalCount := c.criticalCount + 1 }
  else if severity = "HIGH" then { c with highCount := c.highCount + 1 }
  else if severity = "MEDIUM" then { c with mediumCount := c.mediumCount + 1 }
  else if severity = "LOW" then { c with lowCount := c.lowCount + 1 }
  else c

/-- `PDFGenerator.analyzeFindings`: `totalFindings` is the array length,
then `findings.forEach` tallies each normalized severity. -/
def analyzeFindings (findings : List RawFinding) : FindingsAnalysis :=
  findings.foldl (fun c f => tally c (normalizeSeverity f.severity))
    { totalFindings := findings.length
      criticalCount := 0
      highCount := 0
      mediumCount := 0
      lowCount := 0 }

/-- The sum of the four severity buckets of an aggregate. -/
def sumCounts (a : FindingsAnalysis) : Nat :=
  a.criticalCount + a.highCount + a.mediumCount + a.lowCount

/-- A severity string matched by one of the four `case` labels. -/
def recognizedSeverity (s : String) : Bool :=
  s == "CRITICAL" || s == "HIGH" || s == "MEDIUM" || s == "LOW"

/-- `PDFGenerator.getSeverityColor`: the `switch` over the severity
string, `default` black. -/
def getSeverityColor (severity : String) : String :=
  if severity = "CRITICAL" then "#dc2626"
  else if severity = "HIGH" then "#f97316"
  else if severity = "MEDIUM" then "#eab308"
  else if severity = "LOW" then "#22c55e"
  else "#000000"

/-- The severity-distribution bar width from `generateReport`:
`Math.max(50, 300 * (sev.count / Math.max(1, totalFindings)))`.  The
quantities involved are exact, so `ℚ` models the JS number arithmetic. -/
def barWidth (count totalFindings : ℚ) : ℚ :=
  max 50 (300 * (count / max 1 totalFindings))

/-- A persisted `Report` row (final schema shape: primary key `id`,
unique `executionId`).  Timestamps are abstract ticks; `pdfPath` is kept
relative to the reports directory, so a path and the directory entry it
names are the same string. -/
structure Report where
  id : Nat
  executionId : String
  title : String
  inputFindings : List RawFinding
  summary : FindingsAnalysis
  pdfUrl : Option String
  pdfPath : Option String
  status : String
  createdAt : Nat
  updatedAt : Nat
  deriving Repr, DecidableEq

/-- The state a route handler touches: the database rows, the names of
the files in the local `reports/` directory, and the row-id generator of
the data layer. -/
structure ServerState where
  reports : List Report
  files : List String
  nextId : Nat
  deriving Repr, DecidableEq

/-- The data layer lookup `findUnique` keyed on `executionId`. -/
def findByExecutionId (reports : List Report) (eid : String) : Option Report :=
  reports.find? (fun r => r.executionId == eid)

/-- The data layer lookup `findUnique` keyed on the primary key `id`. -/
def findById (reports : List Report) (id : Nat) : Option Report :=
  reports.find? (fun r => r.id == id)

/-- The body of a generate request.  `findings := none` is an absent
field, `some none` a present non-array value (all non-array values fail
the `!findings || !Array.isArray(findings)` check: falsy ones by the
first disjunct, truthy ones by the second), `some (some fs)` an
array. -/
structure GenerateRequest where
  executionId : Option String
  findings : Option (Option (List RawFinding))
  deriving Repr, DecidableEq

/-- The `data` object of the report-already-exists response. -/
structure ExistingReportData where
  reportId : Nat
  executionId : String
  pdfUrl : Option String
  status : String
  createdAt : Nat
  deriving Repr, DecidableEq

/-- The responses the generate route can produce.  `validationError` is
the 400 envelope carrying `success := false` and the error code;
`alreadyExists` the 200 idempotent branch; `generated` the 200 success
payload (reduced to the fields the claims mention). -/
inductive GenerateResponse
  | validationError (error : String)
  | alreadyExists (data : ExistingReportData)
  | generated (reportId : Nat) (executionId : String) (fileName : String)
      (summary : FindingsAnalysis)
  deriving Repr, DecidableEq

/-- The POST generate handler.  `now` stands for the millisecond clock
read `Date.now`.  The handler validates, checks for an existing row, and
otherwise inserts a `PROCESSING` row, renders, writes
`report-<executionId>-<now>.pdf`, and updates the row to `COMPLETED`
with its pdf fields — each step taken in source order. -/
def generate (st : ServerState) (body : GenerateRequest) (now : Nat) :
    ServerState × GenerateResponse :=
  if strTruthy body.executionId = false then
    (st, .validationError "executionId is required")
  else
    match body.findings with
    | some (some findings) =>
      let eid := body.executionId.getD ""
      match findByExecutionId st.reports eid with
      | some existingReport =>
        (st, .alreadyExists ⟨existingReport.id, existingReport.executionId,
          existingReport.pdfUrl, existingReport.status, existingReport.createdAt⟩)
      | none =>
        let analysis := analyzeFindings findings
        let report : Report :=
          { id := st.nextId
            executionId := eid
            title := "Security Report - " ++ eid
            inputFindings := findings
            summary := analysis
            pdfUrl := none
            pdfPath := none
            status := "PROCESSING"
            createdAt := now
            updatedAt := now }
        let st1 : ServerState :=
          { st with reports := st.reports ++ [report], nextId := st.nextId + 1 }
        let fileName := "report-" ++ eid ++ "-" ++ toString now ++ ".pdf"
        let st2 : ServerState := { st1 with files := st1.files ++ [fileName] }
        let downloadUrl := "/api/reports/download/" ++ fileName
        let st3 : ServerState :=
          { st2 with reports := st2.reports.map (fun r =>
              if r.id = report.id then
                { r with
                  pdfUrl := some downloadUrl
                  pdfPath := some fileName
                  status := "COMPLETED"
                  updatedAt := now }
              else r) }
        (st3, .generated report.id eid fileName analysis)
    | _ => (st, .validationError "findings must be an array")

/-- The responses of the DELETE by-id route. -/
inductive DeleteResponse
  | notFound
  | deleted (id : Nat) (deletedFile : Option String)
  deriving Repr, DecidableEq

/-- The DELETE by-id handler: 404 when the row is absent; otherwise
unlink the recorded file when it is non-null and exists on disk, then
delete the row. -/
def deleteReport (st : ServerState) (id : Nat) : ServerState × DeleteResponse :=
  match findById st.reports id with
  | none => (st, .notFound)
  | some report =>
    let files :=
      match report.pdfPath with
      | some p => if p ∈ st.files then st.files.erase p else st.files
      | none => st.files
    ({ st with
        files := files
        reports := st.reports.filter (fun r => !(r.id == id)) },
     .deleted id report.pdfPath)

/-- The responses of the GET by-id route. -/
inductive GetResponse
  | notFound
  | found (report : Report)
  deriving Repr, DecidableEq

/-- The GET by-id handler: lookup by primary key, 404 when absent. -/
def getReportById (st : ServerState) (id : Nat) : GetResponse :=
  match findById st.reports id with
  | none => .notFound
  | some r => .found r

/-- The list-files handler: the names of the pdf files physically
present in the reports directory (link/size/date decoration elided). -/
def listFiles (st : ServerState) : List String :=
  st.files.filter (fun f => f.endsWith ".pdf")

/-- Query parameters of the list route with their presence made
explicit; `sortBy` and `sortOrder` only permute the rows and are
abstracted away. -/
structure ListQuery where
  page : Option Nat
  limit : Option Nat
  status : Option String
  deriving Repr, DecidableEq

/-- The field-limited projection selected by the list route (no
`inputFindings`, no `summary`, no `pdfPath`). -/
structure ReportListItem where
  id : Nat
  executionId : String
  title : String
  status : String
  pdfUrl : Option String
  createdAt : Nat
  updatedAt : Nat
  deriving Repr, DecidableEq

/-- The `pagination` object of the list response. -/
structure PaginationInfo where
  page : Nat
  limit : Nat
  total : Nat
  pages : Nat
  deriving Repr, DecidableEq

/-- The `select` clause of the list route. -/
def toListItem (r : Report) : ReportListItem :=
  ⟨r.id, r.executionId, r.title, r.status, r.pdfUrl, r.createdAt, r.updatedAt⟩

/-- The `where` clause of the list route: optional exact status
filter. -/
def statusFiltered (reports : List Report) (status : Option String) : List Report :=
  match status with
  | some s => reports.filter (fun r => r.status == s)
  | none => reports

/-- The list handler: defaults `page = 1`, `limit = 20`,
`skip = (page - 1) * limit`, `take = limit`, and
`pages = Math.ceil(total / limit)`, written with the natural-number
ceiling division `⌈/⌉`, which agrees with the JS float computation for
every positive `limit`. -/
def listReports (st : ServerState) (q : ListQuery) :
    List ReportListItem × PaginationInfo :=
  let page := q.page.getD 1
  let limit := q.limit.getD 20
  let skip := (page - 1) * limit
  let filtered := statusFiltered st.reports q.status
  let total := filtered.length
  (((filtered.drop skip).take limit).map toListItem,
   ⟨page, limit, total, total ⌈/⌉ limit⟩)

/-- One error-response body, with fields that a given handler omits
modelled as `none` (for `success`, a missing boolean). -/
structure JsonErrorResponse where
  status : Nat
  success : Option Bool
  error : String
  message : Option String
  timestamp : Option String
  deriving Repr, DecidableEq

/-- The health 500 body: a status-ERROR object whose `error` field is
the runtime error message — it carries no `success` and no `message`
field. -/
def healthDbError (errMsg ts : String) : JsonErrorResponse :=
  { status := 500, success := none, error := errMsg, message := none,
    timestamp := some ts }

/-- Every error response a handler of the reports router can emit, in
source order.  `errMsg` stands for the runtime error message and `ts`
for the ISO-8601 rendering of the current time in the handlers that
include them. -/
def reportErrorResponses (errMsg ts : String) : List JsonErrorResponse :=
  [ healthDbError errMsg ts,
    ⟨400, some false, "executionId is required", none, none⟩,
    ⟨400, some false, "findings must be an array", none, none⟩,
    ⟨500, some false, "Failed to generate report", some errMsg, some ts⟩,
    ⟨404, some false, "Report not found", none, none⟩,
    ⟨500, some false, "Failed to fetch report", none, none⟩,
    ⟨404, some false, "Report not found", none, none⟩,
    ⟨500, some false, "Failed to fetch report", none, none⟩,
    ⟨500, some false, "Failed to list reports", none, none⟩,
    ⟨404, some false, "Report file not found", none, none⟩,
    ⟨500, some false, "Failed to download report", none, none⟩,
    ⟨404, some false, "Report file not found", none, none⟩,
    ⟨500, some false, "Failed to view report", none, none⟩,
    ⟨500, some false, "Failed to list files", none, none⟩,
    ⟨404, some false, "Report not found", none, none⟩,
    ⟨500, some false, "Failed to delete report", none, none⟩,
    ⟨500, some false, "Database test failed", some errMsg, some ts⟩ ]

/-- The generate handler's 500 body — the one error response of the
router besides the database-test failure that carries both the runtime
message detail and a timestamp. -/
def generateFailure (errMsg ts : String) : JsonErrorResponse :=
  ⟨500, some false, "Failed to generate report", some errMsg, some ts⟩

/-- The database-test handler's 500 body, the other error response
carrying both the message detail and a timestamp. -/
def dbTestFailure (errMsg ts : String) : JsonErrorResponse :=
  ⟨500, some false, "Database test failed", some errMsg, some ts⟩

/-- A completed report row used to instantiate theorems with hypotheses
on concrete data. -/
def wReport : Report :=
  { id := 1, executionId := "exec-1", title := "t", inputFindings := [],
    summary := ⟨0, 0, 0, 0, 0⟩, pdfUrl := none,
    pdfPath := some "report-exec-1-5.pdf", status := "COMPLETED",
    createdAt := 0, updatedAt := 0 }

/-- A server state holding `wReport` and its file. -/
def wState : ServerState :=
  { reports := [wReport], files := ["report-exec-1-5.pdf"], nextId := 2 }

/-- A well-formed generate body addressing `wReport`. -/
def wBody : GenerateRequest := ⟨some "exec-1", some (some [])⟩

/-! Helper lemmas about `tally` and its fold. -/

theorem tally_totalFindings (c : FindingsAnalysis) (s : String) :
    (tally c s).totalFindings = c.totalFindings := by
  unfold tally; split_ifs <;> rfl

theorem tally_criticalCount (c : FindingsAnalysis) (s : String) :
    (tally c s).criticalCount = c.criticalCount + if s = "CRITICAL" then 1 else 0 := by
  unfold tally; split_ifs with h1 h2 h3 h4 <;> simp_all

theorem tally_highCount (c : FindingsAnalysis) (s : String) :
    (tally c s).highCount = c.highCount + if s = "HIGH" then 1 else 0 := by
  unfold tally; split_ifs with h1 h2 h3 h4 <;> simp_all

theorem tally_mediumCount (c : FindingsAnalysis) (s : String) :
    (tally c s).mediumCount = c.mediumCount + if s = "MEDIUM" then 1 else 0 := by
  unfold tally; split_ifs with h1 h2 h3 h4 <;> simp_all

theorem tally_lowCount (c : FindingsAnalysis) (s : String) :
    (tally c s).lowCount = c.lowCount + if s = "LOW" then 1 else 0 := by
  unfold tally; split_ifs with h1 h2 h3 h4 <;> simp_all

theorem sumCounts_tally_le (c : FindingsAnalysis) (s : String) :
    sumCounts (tally c s) ≤ sumCounts c + 1 := by
  unfold sumCounts
  rw [tally_criticalCount, tally_highCount, tally_mediumCount, tally_lowCount]
  split_ifs <;> simp_all <;> omega

theorem sumCounts_tally_recognized (c : FindingsAnalysis) (s : String)
    (h : recognizedSeverity s = true) :
    sumCounts (tally c s) = sumCounts c + 1 := by
  unfold sumCounts
  rw [tally_criticalCount, tally_highCount, tally_mediumCount, tally_lowCount]
  simp only [recognizedSeverity, Bool.or_eq_true, beq_iff_eq] at h
  rcases h with ((h | h) | h) | h <;> subst h <;> simp <;> omega

theorem tally_unrecognized (c : FindingsAnalysis) (s : String)
    (h : recognizedSeverity s = false) :
    tally c s = c := by
  simp only [recognizedSeverity, Bool.or_eq_false_iff, beq_eq_false_iff_ne, ne_eq] at h
  unfold tally
  split_ifs <;> simp_all

theorem foldl_tally_totalFindings (fs : List RawFinding) (c : FindingsAnalysis) :
    (List.foldl (fun c f => tally c (normalizeSeverity f.severity)) c fs).totalFindings
      = c.totalFindings := by
  induction fs generalizing c with
  | nil => rfl
  | cons f fs ih => rw [List.foldl_cons, ih, tally_totalFindings]

theorem foldl_tally_sum_le (fs : List RawFinding) (c : FindingsAnalysis) :
    sumCounts (List.foldl (fun c f => tally c (normalizeSeverity f.severity)) c fs)
      ≤ sumCounts c + fs.length := by
  induction fs generalizing c with
  | nil => simp
  | cons f fs ih =>
    rw [List.foldl_cons]
    calc sumCounts (List.foldl (fun c f => tally c (normalizeSeverity f.severity))
            (tally c (normalizeSeverity f.severity)) fs)
        ≤ sumCounts (tally c (normalizeSeverity f.severity)) + fs.length := ih _
      _ ≤ sumCounts c + 1 + fs.length := by
            have := sumCounts_tally_le c (normalizeSeverity f.severity); omega
      _ = sumCounts c + (f :: fs).length := by simp [List.length_cons]; omega

theorem foldl_tally_sum_eq (fs : List RawFinding) (c : FindingsAnalysis)
    (h : ∀ f ∈ fs, recognizedSeverity (normalizeSeverity f.severity) = true) :
    sumCounts (List.foldl (fun c f => tally c (normalizeSeverity f.severity)) c fs)
      = sumCounts c + fs.length := by
  induction fs generalizing c with
  | nil => simp
  | cons f fs ih =>
    rw [List.foldl_cons, ih _ (fun g hg => h g (List.mem_cons_of_mem _ hg)),
      sumCounts_tally_recognized c _ (h f (List.mem_cons_self _ _))]
    simp [List.length_cons]; omega

theorem foldl_tally_mediumCount (fs : List RawFinding) (c : FindingsAnalysis) :
    (List.foldl (fun c f => tally c (normalizeSeverity f.severity)) c fs).mediumCount
      = c.mediumCount + fs.countP (fun f => normalizeSeverity f.severity == "MEDIUM") := by
  induction fs generalizing c with
  | nil => simp
  | cons f fs ih =>
    rw [List.foldl_cons, ih, tally_mediumCount, List.countP_cons]
    by_cases h : normalizeSeverity f.severity = "MEDIUM"
    · simp [h]; omega
    · simp [h]

theorem analyzeFindings_def (fs : List RawFinding) :
    analyzeFindings fs
      = List.foldl (fun c f => tally c (normalizeSeverity f.severity))
          ⟨fs.length, 0, 0, 0, 0⟩ fs := rfl

/-! Helper lemmas about the generate handler. -/

theorem generate_exists_noop (st : ServerState) (body : GenerateRequest) (now : Nat)
    (r : Report) (fs : List RawFinding)
    (hb : strTruthy body.executionId = true)
    (hfs : body.findings = some (some fs))
    (hfind : findByExecutionId st.reports (body.executionId.getD "") = some r) :
    generate st body now
      = (st, .alreadyExists ⟨r.id, r.executionId, r.pdfUrl, r.status, r.createdAt⟩) := by
  simp [generate, hb, hfs, hfind]

theorem generate_state_noop (st : ServerState) (body : GenerateRequest) (now : Nat)
    (h : findByExecutionId st.reports (body.executionId.getD "") ≠ none) :
    (generate st body now).1 = st := by
  cases hb : strTruthy body.executionId
  · simp [generate, hb]
  · rcases hfs : body.findings with _ | (_ | fs)
    · simp [generate, hb, hfs]
    · simp [generate, hb, hfs]
    · cases hfind : findByExecutionId st.reports (body.executionId.getD "") with
      | none => exact absurd hfind h
      | some r => simp [generate, hb, hfs, hfind]

theorem generate_has_eid (st : ServerState) (body : GenerateRequest) (now : Nat)
    (fs : List RawFinding)
    (hb : strTruthy body.executionId = true)
    (hfs : body.findings = some (some fs)) :
    findByExecutionId (generate st body now).1.reports (body.executionId.getD "") ≠ none := by
  cases hfind : findByExecutionId st.reports (body.executionId.getD "") with
  | some r =>
    rw [generate_state_noop st body now (by rw [hfind]; exact fun h => Option.noConfusion h)]
    rw [hfind]
    exact fun h => Option.noConfusion h
  | none =>
    simp only [generate, hb, hfs, hfind, Bool.true_eq_false, if_false]
    intro hnone
    rw [findByExecutionId, List.find?_eq_none] at hnone
    exact hnone _
      (List.mem_map_of_mem _ (List.mem_append_right _ (List.mem_singleton_self _)))
      (by simp)

/-! The claims. -/

/-- Claim C1, counterexample: a single finding whose severity uppercases
to the unrecognized value INFO is counted in no bucket, so the four
counts sum to 0 while `totalFindings` is 1 and `mediumCount` stays 0 —
refuting both the sum identity and the unrecognized-counts-as-MEDIUM
reading. -/
theorem analyzeFindings_medium_default_cex :
    sumCounts (analyzeFindings [⟨some "INFO"⟩]) = 0 ∧
    (analyzeFindings [⟨some "INFO"⟩]).totalFindings = 1 ∧
    (analyzeFindings [⟨some "INFO"⟩]).mediumCount = 0 := by decide

/-- Claim C1, amended: for every findings array the four counts sum to
at most `totalFindings`, with equality whenever every finding has a
recognized normalized severity; a missing severity normalizes to MEDIUM
and `mediumCount` counts exactly the findings normalizing to MEDIUM, so
absent severities are counted as medium while present unrecognized ones
are not counted at all. -/
theorem analyzeFindings_counts_spec (fs : List RawFinding) :
    sumCounts (analyzeFindings fs) ≤ (analyzeFindings fs).totalFindings ∧
    ((∀ f ∈ fs, recognizedSeverity (normalizeSeverity f.severity) = true) →
      sumCounts (analyzeFindings fs) = (analyzeFindings fs).totalFindings) ∧
    normalizeSeverity none = "MEDIUM" ∧
    (analyzeFindings fs).mediumCount
      = fs.countP (fun f => normalizeSeverity f.severity == "MEDIUM") := by
  refine ⟨?_, fun h => ?_, rfl, ?_⟩
  · rw [analyzeFindings_def, foldl_tally_totalFindings]
    simpa [sumCounts] using foldl_tally_sum_le fs ⟨fs.length, 0, 0, 0, 0⟩
  · rw [analyzeFindings_def, foldl_tally_totalFindings]
    simpa [sumCounts] using foldl_tally_sum_eq fs ⟨fs.length, 0, 0, 0, 0⟩ h
  · rw [analyzeFindings_def, foldl_tally_mediumCount]
    simp

/-- Claim C1, witness: on a two-finding list with severities critical
and absent, every normalized severity is recognized and the counts sum
to the total. -/
theorem analyzeFindings_counts_spec_witness :
    sumCounts (analyzeFindings [⟨some "critical"⟩, ⟨none⟩])
      = (analyzeFindings [⟨some "critical"⟩, ⟨none⟩]).totalFindings :=
  (analyzeFindings_counts_spec [⟨some "critical"⟩, ⟨none⟩]).2.1 (by decide)

/-- Claim C2: generate is idempotent per executionId.  When a row for
the requested executionId exists, a valid generate call returns exactly
the unchanged state paired with the already-exists response built from
that row, so no analysis, insert, rendering or file write happens; and
after any valid generate call, a second call whose body carries the same
executionId leaves the state — rows and files — exactly as the first
call left it. -/
theorem generate_idempotent (st : ServerState) (body body2 : GenerateRequest)
    (now now2 : Nat) :
    (∀ (r : Report) (fs : List RawFinding),
      strTruthy body.executionId = true →
      body.findings = some (some fs) →
      findByExecutionId st.reports (body.executionId.getD "") = some r →
      generate st body now
        = (st, .alreadyExists ⟨r.id, r.executionId, r.pdfUrl, r.status, r.createdAt⟩)) ∧
    (∀ fs : List RawFinding,
      strTruthy body.executionId = true →
      body.findings = some (some fs) →
      body2.executionId = body.executionId →
      (generate (generate st body now).1 body2 now2).1 = (generate st body now).1) := by
  refine ⟨fun r fs hb hfs hfind => generate_exists_noop st body now r fs hb hfs hfind,
    fun fs hb hfs heq => ?_⟩
  apply generate_state_noop
  rw [heq]
  exact generate_has_eid st body now fs hb hfs

/-- Claim C2, witness: generating against a state already holding the
exec-1 report returns it unchanged, and a repeated call changes
nothing. -/
theorem generate_idempotent_witness :
    generate wState wBody 7
      = (wState, .alreadyExists ⟨1, "exec-1", none, "COMPLETED", 0⟩) ∧
    (generate (generate wState wBody 7).1 wBody 8).1 = (generate wState wBody 7).1 :=
  ⟨(generate_idempotent wState wBody wBody 7 8).1 wReport [] (by decide) rfl (by decide),
   (generate_idempotent wState wBody wBody 7 8).2 [] (by decide) rfl rfl⟩

/-- Claim C3: a generate body with a falsy executionId is answered with
the 400 executionId-is-required envelope, and a truthy executionId with
a missing or non-array findings field with the 400
findings-must-be-an-array envelope; in both cases the state — hence the
database — is returned unchanged. -/
theorem generate_validation_rejects (st : ServerState) (body : GenerateRequest)
    (now : Nat) :
    (strTruthy body.executionId = false →
      generate st body now = (st, .validationError "executionId is required")) ∧
    (strTruthy body.executionId = true →
      (∀ fs, body.findings ≠ some (some fs)) →
      generate st body now = (st, .validationError "findings must be an array")) := by
  refine ⟨fun h => by simp [generate, h], fun hb hn => ?_⟩
  rcases hfs : body.findings with _ | (_ | fs)
  · simp [generate, hb, hfs]
  · simp [generate, hb, hfs]
  · exact absurd hfs (hn fs)

/-- Claim C3, witness: a body without executionId and a body without a
findings array are each rejected with the matching 400 envelope and an
unchanged state. -/
theorem generate_validation_rejects_witness :
    generate wState ⟨none, some (some [])⟩ 3
      = (wState, .validationError "executionId is required") ∧
    generate wState ⟨some "e9", none⟩ 3
      = (wState, .validationError "findings must be an array") :=
  ⟨(generate_validation_rejects wState ⟨none, some (some [])⟩ 3).1 rfl,
   (generate_validation_rejects wState ⟨some "e9", none⟩ 3).2 (by decide)
     (fun fs h => Option.noConfusion h)⟩

/-- Claim C4, counterexample: listing an empty table with the default
query (limit 20, page 1) yields `pages = 0`, not 1, although fewer than
20 rows exist. -/
theorem listReports_pages_empty_cex :
    (listReports ⟨[], [], 0⟩ ⟨none, none, none⟩).2.pages = 0 ∧
    ¬ (listReports ⟨[], [], 0⟩ ⟨none, none, none⟩).2.pages = 1 ∧
    (⟨[], [], 0⟩ : ServerState).reports.length < 20 ∧
    (listReports ⟨[], [], 0⟩ ⟨none, none, none⟩).2.limit = 20 := by
  refine ⟨?_, ?_, by decide, ?_⟩ <;>
    simp [listReports, statusFiltered, Nat.ceilDiv_eq_add_pred_div]

/-- Claim C4, amended: the pagination object reports the defaulted page
and limit, the filtered total, and `pages` equal to the ceiling of
total over limit; listing with limit 20 when at least one and fewer than
20 matching rows exist returns all of them on page 1 with `pages = 1`
(an empty table instead yields `pages = 0`). -/
theorem listReports_pagination_spec (st : ServerState) (q : ListQuery) :
    (listReports st q).2.page = q.page.getD 1 ∧
    (listReports st q).2.limit = q.limit.getD 20 ∧
    (listReports st q).2.total = (statusFiltered st.reports q.status).length ∧
    (listReports st q).2.pages
        = (statusFiltered st.reports q.status).length ⌈/⌉ q.limit.getD 20 ∧
    (q.page.getD 1 = 1 → q.limit.getD 20 = 20 →
      0 < (statusFiltered st.reports q.status).length →
      (statusFiltered st.reports q.status).length < 20 →
      (listReports st q).1 = (statusFiltered st.reports q.status).map toListItem ∧
      (listReports st q).2.pages = 1) := by
  refine ⟨rfl, rfl, rfl, rfl, fun hp hl h0 h20 => ⟨?_, ?_⟩⟩
  · simp only [listReports, hp, hl]
    rw [Nat.sub_self, Nat.zero_mul, List.drop_zero,
      List.take_of_length_le (Nat.le_of_lt h20)]
  · simp only [listReports, hl]
    rw [Nat.ceilDiv_eq_add_pred_div]
    omega

/-- Claim C4, witness: a one-row table listed with the default query
comes back whole on one page. -/
theorem listReports_pagination_spec_witness :
    (listReports ⟨[⟨1, "e", "t", [], ⟨0, 0, 0, 0, 0⟩, none, none, "COMPLETED", 0, 0⟩], [], 2⟩
        ⟨none, none, none⟩).1
      = (statusFiltered [⟨1, "e", "t", [], ⟨0, 0, 0, 0, 0⟩, none, none, "COMPLETED", 0, 0⟩]
          none).map toListItem ∧
    (listReports ⟨[⟨1, "e", "t", [], ⟨0, 0, 0, 0, 0⟩, none, none, "COMPLETED", 0, 0⟩], [], 2⟩
        ⟨none, none, none⟩).2.pages = 1 :=
  (listReports_pagination_spec
    ⟨[⟨1, "e", "t", [], ⟨0, 0, 0, 0, 0⟩, none, none, "COMPLETED", 0, 0⟩], [], 2⟩
    ⟨none, none, none⟩).2.2.2.2 rfl rfl (by decide) (by decide)

/-- Claim C5, counterexample: the 400 executionId-is-required envelope
emitted by the generate handler is an error response of the reports
router that carries neither a `message` nor a `timestamp` field. -/
theorem error_envelope_cex :
    (⟨400, some false, "executionId is required", none, none⟩ : JsonErrorResponse)
        ∈ reportErrorResponses "boom" "2025-01-01T00:00:00.000Z" ∧
    (⟨400, some false, "executionId is required", none, none⟩ : JsonErrorResponse).message
        = none ∧
    (⟨400, some false, "executionId is required", none, none⟩ : JsonErrorResponse).timestamp
        = none := by
  refine ⟨?_, rfl, rfl⟩
  simp [reportErrorResponses]

/-- Claim C5, amended: every error response emitted by a report route
handler other than the health 500 is a JSON object with `success :=
false` and a non-empty error code; an error response omits both the
message detail and the timestamp exactly when it is none of the health,
generate and database-test failure bodies — so the fetch, list,
download, view, list-files and delete 500s and every 400 and 404 omit
both, while the generate and database-test 500s (which do occur among
the responses) carry the message and the ISO-8601 timestamp, and the
health 500 carries the timestamp only. -/
theorem error_envelope_spec (errMsg ts : String) :
    (∀ e ∈ reportErrorResponses errMsg ts,
      (e = healthDbError errMsg ts ∨ (e.success = some false ∧ e.error ≠ "")) ∧
      ((e.message = none ∧ e.timestamp = none) ↔
        (e ≠ healthDbError errMsg ts ∧ e ≠ generateFailure errMsg ts ∧
          e ≠ dbTestFailure errMsg ts))) ∧
    generateFailure errMsg ts ∈ reportErrorResponses errMsg ts ∧
    dbTestFailure errMsg ts ∈ reportErrorResponses errMsg ts ∧
    (generateFailure errMsg ts).status = 500 ∧
    (generateFailure errMsg ts).message = some errMsg ∧
    (generateFailure errMsg ts).timestamp = some ts ∧
    (dbTestFailure errMsg ts).status = 500 ∧
    (dbTestFailure errMsg ts).message = some errMsg ∧
    (dbTestFailure errMsg ts).timestamp = some ts ∧
    (healthDbError errMsg ts).message = none ∧
    (healthDbError errMsg ts).timestamp = some ts := by
  refine ⟨?_, by simp [reportErrorResponses, generateFailure],
    by simp [reportErrorResponses, dbTestFailure],
    rfl, rfl, rfl, rfl, rfl, rfl, rfl, rfl⟩
  intro e he
  simp only [reportErrorResponses, List.mem_cons, List.not_mem_nil, or_false] at he
  rcases he with rfl | rfl | rfl | rfl | rfl | rfl | rfl | rfl | rfl | rfl | rfl | rfl |
    rfl | rfl | rfl | rfl | rfl
  all_goals
    exact ⟨by simp [healthDbError, generateFailure, dbTestFailure],
      by simp [healthDbError, generateFailure, dbTestFailure]⟩

/-- Claim C5, witness: the 404 report-not-found envelope instantiates
the per-response clause — success false with a non-empty error code, and
it omits message and timestamp precisely because it is none of the three
field-carrying bodies. -/
theorem error_envelope_spec_witness :
    ((⟨404, some false, "Report not found", none, none⟩ : JsonErrorResponse)
        = healthDbError "boom" "ts0" ∨
      ((⟨404, some false, "Report not found", none, none⟩ : JsonErrorResponse).success
          = some false ∧
        (⟨404, some false, "Report not found", none, none⟩ : JsonErrorResponse).error
          ≠ "")) ∧
    (((⟨404, some false, "Report not found", none, none⟩ : JsonErrorResponse).message
          = none ∧
      (⟨404, some false, "Report not found", none, none⟩ : JsonErrorResponse).timestamp
          = none) ↔
      ((⟨404, some false, "Report not found", none, none⟩ : JsonErrorResponse)
          ≠ healthDbError "boom" "ts0" ∧
        (⟨404, some false, "Report not found", none, none⟩ : JsonErrorResponse)
          ≠ generateFailure "boom" "ts0" ∧
        (⟨404, some false, "Report not found", none, none⟩ : JsonErrorResponse)
          ≠ dbTestFailure "boom" "ts0")) :=
  (error_envelope_spec "boom" "ts0").1 ⟨404, some false, "Report not found", none, none⟩
    (by simp [reportErrorResponses])

/-- Claim C6: deleting an absent id returns 404 and changes nothing;
deleting an existing row responds with its recorded pdf path, makes a
subsequent get-by-id return 404, and — assuming the directory listing
holds no duplicate names — removes the recorded filename from the
subsequent file listing. -/
theorem deleteReport_spec (st : ServerState) (id : Nat)
    (hfiles : st.files.Nodup) :
    (findById st.reports id = none → deleteReport st id = (st, .notFound)) ∧
    (∀ r, findById st.reports id = some r →
      (deleteReport st id).2 = .deleted id r.pdfPath ∧
      getReportById (deleteReport st id).1 id = .notFound ∧
      ∀ p, r.pdfPath = some p → p ∉ listFiles (deleteReport st id).1) := by
  refine ⟨fun h => by simp [deleteReport, h], fun r hr => ?_⟩
  have hgone : findById (st.reports.filter (fun r => !(r.id == id))) id = none := by
    rw [findById, List.find?_eq_none]
    intro x hx
    have := (List.mem_filter.1 hx).2
    simp at this ⊢
    exact this
  refine ⟨by simp [deleteReport, hr], ?_, ?_⟩
  · simp only [deleteReport, hr]
    simp [getReportById, hgone]
  · intro p hp
    simp only [deleteReport, hr, hp]
    intro hmem
    have hmem' : p ∈ (if p ∈ st.files then st.files.erase p else st.files) :=
      (List.mem_filter.1 hmem).1
    by_cases hin : p ∈ st.files
    · rw [if_pos hin] at hmem'
      exact absurd ((hfiles.mem_erase_iff.1 hmem').1) (by simp)
    · rw [if_neg hin] at hmem'
      exact hin hmem'

/-- Claim C6, witness: deleting the stored report removes both its row
and its file from the concrete state. -/
theorem deleteReport_spec_witness :
    getReportById (deleteReport wState 1).1 1 = .notFound ∧
    "report-exec-1-5.pdf" ∉ listFiles (deleteReport wState 1).1 := by
  have h := (deleteReport_spec wState 1 (by decide)).2 wReport (by decide)
  exact ⟨h.2.1, h.2.2 _ rfl⟩

/-- Claim C7: the severity-to-color mapping is a pure total function on
strings sending CRITICAL, HIGH, MEDIUM and LOW to their fixed hex values
and every other string to black. -/
theorem getSeverityColor_spec :
    getSeverityColor "CRITICAL" = "#dc2626" ∧
    getSeverityColor "HIGH" = "#f97316" ∧
    getSeverityColor "MEDIUM" = "#eab308" ∧
    getSeverityColor "LOW" = "#22c55e" ∧
    ∀ s : String, s ≠ "CRITICAL" → s ≠ "HIGH" → s ≠ "MEDIUM" → s ≠ "LOW" →
      getSeverityColor s = "#000000" := by
  refine ⟨by decide, by decide, by decide, by decide, fun s h1 h2 h3 h4 => ?_⟩
  unfold getSeverityColor
  rw [if_neg h1, if_neg h2, if_neg h3, if_neg h4]

/-- Claim C7, witness: the unrecognized severity INFO maps to black and
CRITICAL to its fixed red. -/
theorem getSeverityColor_spec_witness :
    getSeverityColor "INFO" = "#000000" ∧ getSeverityColor "CRITICAL" = "#dc2626" :=
  ⟨getSeverityColor_spec.2.2.2.2 "INFO" (by decide) (by decide) (by decide) (by decide),
   getSeverityColor_spec.1⟩

/-- Claim C8: the severity bar width is at least 50 units for every
count and total, and equals exactly 50 when the count is zero. -/
theorem barWidth_ge_floor (count totalFindings : ℚ) :
    50 ≤ barWidth count totalFindings ∧ barWidth 0 totalFindings = 50 := by
  constructor
  · exact le_max_left _ _
  · norm_num [barWidth]

/-- Claim C9: a generate body whose executionId is the empty string is
rejected with the 400 executionId-is-required envelope — the JS
truthiness check treats the empty string as missing — and the state is
returned unchanged, whatever the findings field holds. -/
theorem generate_empty_executionId_rejected (st : ServerState)
    (findings : Option (Option (List RawFinding))) (now : Nat) :
    generate st ⟨some "", findings⟩ now
      = (st, .validationError "executionId is required") := by
  simp [generate, strTruthy]

/-- Claim C10: for every input array, `totalFindings` equals the array
length, each bucket is non-negative, the buckets sum to at most
`totalFindings`, and tallying a present non-empty severity that is
unrecognized after uppercasing changes no bucket. -/
theorem analyzeFindings_invariants (fs : List RawFinding) :
    (analyzeFindings fs).totalFindings = fs.length ∧
    (0 ≤ (analyzeFindings fs).criticalCount ∧ 0 ≤ (analyzeFindings fs).highCount ∧
      0 ≤ (analyzeFindings fs).mediumCount ∧ 0 ≤ (analyzeFindings fs).lowCount) ∧
    sumCounts (analyzeFindings fs) ≤ (analyzeFindings fs).totalFindings ∧
    (∀ (c : FindingsAnalysis) (s : String), s ≠ "" →
      recognizedSeverity (jsToUpper s) = false →
      tally c (normalizeSeverity (some s)) = c) := by
  refine ⟨?_, ⟨Nat.zero_le _, Nat.zero_le _, Nat.zero_le _, Nat.zero_le _⟩, ?_,
    fun c s hs hrec => ?_⟩
  · rw [analyzeFindings_def, foldl_tally_totalFindings]
  · rw [analyzeFindings_def, foldl_tally_totalFindings]
    simpa [sumCounts] using foldl_tally_sum_le fs ⟨fs.length, 0, 0, 0, 0⟩
  · have hns : normalizeSeverity (some s) = jsToUpper s := by
      simp [normalizeSeverity, severityOrDefault, hs]
    rw [hns]
    exact tally_unrecognized c _ hrec

/-- Claim C10, witness: a two-finding array has total 2, and tallying
the unrecognized severity INFO leaves a concrete aggregate untouched. -/
theorem analyzeFindings_invariants_witness :
    (analyzeFindings [⟨some "INFO"⟩, ⟨some "low"⟩]).totalFindings = 2 ∧
    tally ⟨2, 0, 0, 0, 1⟩ (normalizeSeverity (some "INFO")) = ⟨2, 0, 0, 0, 1⟩ :=
  ⟨(analyzeFindings_invariants [⟨some "INFO"⟩, ⟨some "low"⟩]).1,
   (analyzeFindings_invariants []).2.2.2 ⟨2, 0, 0, 0, 1⟩ "INFO" (by decide) (by decide)⟩

end SOCReportGen
